import Mathlib

/-!
Verification of the GPU-cluster cooling system (fog server + Next.js web interface).

The web interface under `web-interface/` is embedded directly from its
TypeScript source (`lib/api.ts`, `app/control/page.tsx`,
`components/dashboard/ClimateWidget.tsx`, …).  The fog-server backend
(cooling algorithm, mode arbiter, trend accumulator, alert evaluator,
environmental actuator controller) is not part of the checked-in sources;
those components are modelled from the specification, and every such
definition is marked `Modelled from the spec:` in its doc comment.

Numbers: JavaScript/Python floats are modelled as rationals (ℚ); integer
counters as ℤ/ℕ.
-/

namespace GpuCooling

/-! ## Data model (from `web-interface/lib/api.ts`) -/

/-- Operating mode of the system, from the `SystemMode.mode` union type
`'auto' | 'manual'` in `lib/api.ts`. -/
inductive Mode where
  | auto : Mode
  | manual : Mode
deriving DecidableEq, Repr

/-- One GPU temperature reading, from interface `GPUTemp` in `lib/api.ts`
(the `load` field is irrelevant to the claims and omitted). -/
structure GPUTemp where
  gpu_id : ℕ
  temperature : ℚ
deriving DecidableEq, Repr

/-- One manual fan command, from interface `ManualControlCommand` in
`lib/api.ts`. -/
structure ManualControlCommand where
  fan_id : ℕ
  pwm_duty : ℤ
deriving DecidableEq, Repr

/-- Environmental actuator state, from interface `EnvironmentalActuatorData`
in `lib/api.ts`. -/
structure ActuatorState where
  dehumidifier_active : Bool
  dehumidifier_power : ℚ
  humidifier_active : Bool
  humidifier_power : ℚ
deriving DecidableEq, Repr

/-! ## Fan RPM derivation (from `app/control/page.tsx`)

The control page displays, for each fan slider,
`const rpm = Math.round(800 + (5000 - 800) * pwm / 100);`. -/

/-- JavaScript `Math.round` on a rational: round half away from zero for
positive halves, i.e. `⌊q + 1/2⌋` (JS rounds `.5` up). -/
def jsRound (q : ℚ) : ℤ := ⌊q + 1/2⌋

/-- From `app/control/page.tsx`: `Math.round(800 + (5000 - 800) * pwm / 100)`. -/
def rpmFromPwm (pwm : ℚ) : ℤ := jsRound (800 + (5000 - 800) * pwm / 100)

/-! ## Health check (from `lib/api.ts`)

`healthCheck` wraps `fetch` in `try { return response.ok } catch { return false }`. -/

/-- Outcome of a `fetch` call as seen by the client: either the promise
rejects (network failure) or a response with its `ok` flag arrives. -/
inductive FetchOutcome where
  | netError : FetchOutcome
  | response (ok : Bool) : FetchOutcome
deriving DecidableEq, Repr

/-- From `lib/api.ts` `healthCheck`: returns `response.ok`, and `false` when
the fetch throws; it never propagates the exception. -/
def healthCheck : FetchOutcome → Bool
  | .netError => false
  | .response ok => ok

/-! ## Manual fan control client (from `lib/api.ts` and `app/control/page.tsx`) -/

/-- An HTTP response to `POST /api/v1/fan-control/manual` as the client
inspects it: the `ok` flag and the optional string `detail` field of the
error body. -/
structure HttpResponse where
  ok : Bool
  detail : Option String
deriving DecidableEq, Repr

/-- From `lib/api.ts` `setManualFanControl`: when `response.ok` fails, throw
`Error(detail ?? 'Failed to set manual control')`; otherwise resolve. -/
def setManualFanControl (r : HttpResponse) : Except String Unit :=
  if r.ok then Except.ok ()
  else Except.error (r.detail.getD "Failed to set manual control")

/-- From `app/control/page.tsx` `handleApplyManualControl`: the guard
`if (mode?.mode !== 'manual') { alert(...); return; }` refuses to send any
commands unless the displayed mode is `'manual'`; `none` models the early
return, `some cmds` the commands handed to `setManualFanControl`. -/
def handleApplyManualControl (mode : Option Mode) (cmds : List ManualControlCommand) :
    Option (List ManualControlCommand) :=
  if mode = some Mode.manual then some cmds else none

/-! ## Overheat pre-check (from `app/control/page.tsx`)

Inside `handleApplyManualControl` the page warns about hot GPUs:
`const gpuTemp = state?.gpu_temps.find(g => g.gpu_id === i)?.temperature || 0;`
`if (gpuTemp > 70 && pwm < 60) warnings.push(...)`. -/

/-- From `app/control/page.tsx`: the temperature used by the overheat check.
The JS expression `find(...)?.temperature || 0` yields `0` when the reading
is absent (undefined) and also when the reported temperature is exactly `0`
(falsy); on a rational both collapse to the same value. -/
def gpuTempOrZero (temps : List GPUTemp) (i : ℕ) : ℚ :=
  match temps.find? (fun g => g.gpu_id = i) with
  | none => 0
  | some g => if g.temperature = 0 then 0 else g.temperature

/-- From `app/control/page.tsx`: the per-fan overheat warning condition
`gpuTemp > 70 && pwm < 60`. -/
def overheatWarning (temps : List GPUTemp) (i : ℕ) (pwm : ℚ) : Bool :=
  decide (70 < gpuTempOrZero temps i) && decide (pwm < 60)

/-! ## Humidity classification (from `components/dashboard/ClimateWidget.tsx`)

`const humVal = humidity ?? 0;`
`const isHumOptimal = humVal >= 40 && humVal <= 60;`
`const isHumLow = humVal < 40;` and the rendering treats the remaining case
as "Висока" (high). -/

/-- Humidity classification relative to the 40–60 % band. -/
inductive HumClass where
  | low : HumClass
  | optimal : HumClass
  | high : HumClass
deriving DecidableEq, Repr

/-- From `ClimateWidget.tsx`: `humidity ?? 0`. -/
def humVal (humidity : Option ℚ) : ℚ := humidity.getD 0

/-- From `ClimateWidget.tsx`: `isHumOptimal`/`isHumLow` booleans, with the
residual rendering branch as `high`. -/
def classifyHumidity (h : ℚ) : HumClass :=
  if 40 ≤ h ∧ h ≤ 60 then HumClass.optimal
  else if h < 40 then HumClass.low
  else HumClass.high

/-! ## Fog-server components (modelled from the spec)

The fog server (`fog-server/app/main.py` with the `CoolingAlgorithm` class)
is not among the checked-in sources; the definitions below are modelled
from the specification of the respective component. -/

/-- Clamp an integer PWM command into [0,100]. -/
def clampPwm (p : ℤ) : ℤ := max 0 (min 100 p)

/-- Result of submitting a manual command batch to the mode arbiter. -/
inductive SubmitResult where
  | invalidMode : SubmitResult
  | accepted (cmds : List ManualControlCommand) : SubmitResult
deriving DecidableEq, Repr

/-- Modelled from the spec: the fog-server Mode Arbiter's
`submitManualCommands` (§4.1), missing from the checked-in sources.
Rejects the batch with an InvalidMode error while mode=auto; while
mode=manual it accepts, clamping out-of-range PWM instead of rejecting. -/
def submitManualCommands (mode : Mode) (cmds : List ManualControlCommand) : SubmitResult :=
  match mode with
  | Mode.auto => SubmitResult.invalidMode
  | Mode.manual =>
      SubmitResult.accepted (cmds.map fun c => { c with pwm_duty := clampPwm c.pwm_duty })

/-- Severity of a GPU temperature alert, from the `Alert.severity` union
type `'warning' | 'critical'` in `lib/api.ts`. -/
inductive Severity where
  | warning : Severity
  | critical : Severity
deriving DecidableEq, Repr

/-- Modelled from the spec: the fog-server Alert Evaluator (§4.4), missing
from the checked-in sources: compare a GPU temperature to the warning
(90 °C) and critical (120 °C) thresholds and emit at most one alert at the
highest severity breached. -/
def evalGpuAlert (T : ℚ) : Option Severity :=
  if 120 ≤ T then some Severity.critical
  else if 90 ≤ T then some Severity.warning
  else none

/-- A GPU alert as produced by one evaluation cycle. -/
structure GpuAlert where
  gpu_id : ℕ
  severity : Severity
deriving DecidableEq, Repr

/-- Modelled from the spec: one evaluation cycle of the Alert Evaluator
over the current GPU readings, emitting at most one alert per reading. -/
def evalAlerts (readings : List GPUTemp) : List GpuAlert :=
  readings.filterMap fun r => (evalGpuAlert r.temperature).map fun s => ⟨r.gpu_id, s⟩

/-- Modelled from the spec: the smoothing stage of the fog-server
`CoolingAlgorithm` (§4.2 step 4), missing from the checked-in sources: when
the target differs from the currently commanded PWM by more than 10
percentage points, move toward the target by a bounded ±10-point step;
otherwise snap directly to the target. -/
def smoothPwm (current target : ℚ) : ℚ :=
  if 10 < |target - current| then
    (if current < target then current + 10 else current - 10)
  else target

/-- Modelled from the spec: the base-target stage of the fog-server
`CoolingAlgorithm` (§4.2 step 1), missing from the checked-in sources: a
linear map of GPU temperature onto [20,100] % PWM across the configured
[Tmin, Tmax] band, clamped to the band edges outside it. -/
def basePwm (Tmin Tmax T : ℚ) : ℚ :=
  if T ≤ Tmin then 20
  else if Tmax ≤ T then 100
  else 20 + (T - Tmin) / (Tmax - Tmin) * 80

/-- Trend accumulator state, from the value fields of interface
`AdvancedTrends` in `lib/api.ts` (corrosion index CI and fan wear index
FWI). -/
structure TrendState where
  corrosion_index : ℚ
  fan_wear_index : ℚ
deriving DecidableEq, Repr

/-- Modelled from the spec: one accumulation tick of the fog-server Trend
Accumulator (§4.3), missing from the checked-in sources. CI grows with
elapsed time × the positive part of the deviation of humidity from the
optimal 40–60 band; FWI grows with elapsed time × RPM weighted by dust;
a zero or negative elapsed time (clock anomaly) skips accumulation. -/
def trendTick (s : TrendState) (dt humidity dust rpm : ℚ) : TrendState :=
  if dt ≤ 0 then s
  else
    { corrosion_index :=
        s.corrosion_index + dt * (max 0 (humidity - 60) + max 0 (40 - humidity)),
      fan_wear_index := s.fan_wear_index + dt * rpm * dust }

/-- Modelled from the spec: the Trend Accumulator's `reset()` behind
`POST /trends/advanced/reset` (§4.3), missing from the checked-in sources:
zeroes both indices. -/
def trendReset : TrendState := ⟨0, 0⟩

/-- Clamp an actuator power into [0,100]. -/
def clampPower (p : ℚ) : ℚ := max 0 (min 100 p)

/-- Modelled from the spec: the auto-mode synthesis of the Environmental
Actuator Controller (§4.5), missing from the checked-in sources:
dehumidify when humidity is above the profile's 40–60 target band,
humidify when below it, both inactive inside it, with bounded power
proportional to the deviation. -/
def autoActuator (h : ℚ) : ActuatorState :=
  if 60 < h then ⟨true, min 100 (5 * (h - 60)), false, 0⟩
  else if h < 40 then ⟨false, 0, true, min 100 (5 * (40 - h))⟩
  else ⟨false, 0, false, 0⟩

/-- Modelled from the spec: the manual-mode commit of the Environmental
Actuator Controller (§4.5), missing from the checked-in sources: commits
the submitted ActuatorState verbatim, with powers clamped to 0–100. -/
def manualCommitActuator (a : ActuatorState) : ActuatorState :=
  { a with dehumidifier_power := clampPower a.dehumidifier_power,
           humidifier_power := clampPower a.humidifier_power }

end GpuCooling

namespace GpuCooling

/-! ## Theorems for claims backed entirely by checked-in sources -/

/-- C5: For every PWM duty value pwm in [0,100], the fan RPM derived from it
equals round(800 + (5000 − 800) · pwm / 100): it is 800 RPM at 0 % and
5000 RPM at 100 %, and is monotonically non-decreasing in pwm. -/
theorem rpm_linear_monotone (p q : ℚ) (_hp : 0 ≤ p) (hpq : p ≤ q) (_hq : q ≤ 100) :
    rpmFromPwm 0 = 800 ∧ rpmFromPwm 100 = 5000 ∧
    rpmFromPwm p = jsRound (800 + (5000 - 800) * p / 100) ∧
    rpmFromPwm p ≤ rpmFromPwm q := by
  refine ⟨?_, ?_, rfl, ?_⟩
  · show ⌊(800 : ℚ) + (5000 - 800) * 0 / 100 + 1/2⌋ = 800
    norm_num
  · show ⌊(800 : ℚ) + (5000 - 800) * 100 / 100 + 1/2⌋ = 5000
    norm_num
  · apply Int.floor_le_floor
    linarith

/-- Witness for C5 at concrete PWM values 30 ≤ 70. -/
theorem rpm_linear_monotone_witness :
    rpmFromPwm 0 = 800 ∧ rpmFromPwm 100 = 5000 ∧
    rpmFromPwm 30 = jsRound (800 + (5000 - 800) * 30 / 100) ∧
    rpmFromPwm 30 ≤ rpmFromPwm 70 :=
  rpm_linear_monotone 30 70 (by norm_num) (by norm_num) (by norm_num)

/-- C9: The healthCheck client function is total and never throws: for every
fetch outcome it returns a boolean, returning true if and only if the HTTP
response to GET /health has an ok status, and returning false (rather than
propagating an exception) on any network failure. -/
theorem healthCheck_total_ok :
    (∀ o : FetchOutcome, healthCheck o = true ↔ o = FetchOutcome.response true) ∧
    healthCheck FetchOutcome.netError = false := by
  constructor
  · intro o
    cases o with
    | netError => simp [healthCheck]
    | response ok => cases ok <;> simp [healthCheck]
  · rfl

/-- C2: Submitting a batch of manual fan commands while the system mode is
auto always fails with an InvalidMode error, and always succeeds (with
out-of-range PWM clamped) while the mode is manual; on the client,
setManualFanControl throws an Error carrying the server's detail message
exactly when the HTTP response is not ok, and the control page refuses to
send commands at all when the displayed mode is not 'manual'. -/
theorem manual_control_mode_gating
    (cmds : List ManualControlCommand) (r : HttpResponse) (d : String)
    (hok : r.ok = false) (hd : r.detail = some d)
    (m : Option Mode) (hm : m ≠ some Mode.manual) :
    submitManualCommands Mode.auto cmds = SubmitResult.invalidMode
    ∧ (∃ out, submitManualCommands Mode.manual cmds = SubmitResult.accepted out
        ∧ ∀ c ∈ out, 0 ≤ c.pwm_duty ∧ c.pwm_duty ≤ 100)
    ∧ setManualFanControl r = Except.error d
    ∧ (∀ r2 : HttpResponse, r2.ok = true → setManualFanControl r2 = Except.ok ())
    ∧ handleApplyManualControl m cmds = none := by
  refine ⟨rfl, ⟨_, rfl, ?_⟩, ?_, ?_, ?_⟩
  · intro c hc
    rw [List.mem_map] at hc
    obtain ⟨c0, _, hc0⟩ := hc
    subst hc0
    exact ⟨le_max_left 0 _, max_le (by norm_num) (min_le_left 100 _)⟩
  · simp [setManualFanControl, hok, hd]
  · intro r2 h2
    simp [setManualFanControl, h2]
  · simp [handleApplyManualControl, hm]

/-- Witness for C2 at a concrete out-of-range command batch, a failing
response with detail "Invalid mode", and displayed mode auto. -/
theorem manual_control_mode_gating_witness :
    submitManualCommands Mode.auto [⟨3, 150⟩] = SubmitResult.invalidMode
    ∧ (∃ out, submitManualCommands Mode.manual [⟨3, 150⟩] = SubmitResult.accepted out
        ∧ ∀ c ∈ out, 0 ≤ c.pwm_duty ∧ c.pwm_duty ≤ 100)
    ∧ setManualFanControl ⟨false, some "Invalid mode"⟩ = Except.error "Invalid mode"
    ∧ (∀ r2 : HttpResponse, r2.ok = true → setManualFanControl r2 = Except.ok ())
    ∧ handleApplyManualControl (some Mode.auto) [⟨3, 150⟩] = none :=
  manual_control_mode_gating [⟨3, 150⟩] ⟨false, some "Invalid mode"⟩ "Invalid mode"
    rfl rfl (some Mode.auto) (by simp)

/-- C10: In the control page's pre-submission overheat check, any fan id
whose GPU reading is absent from gpu_temps — or whose reported temperature
is exactly 0 — is treated as having temperature 0 °C (via the `|| 0`
fallback), so the overheat warning (temperature > 70 °C and commanded
PWM < 60 %) is never raised for that GPU regardless of the commanded PWM. -/
theorem overheat_check_zero_fallback (temps : List GPUTemp) (i : ℕ) (pwm : ℚ) :
    (temps.find? (fun g => g.gpu_id = i) = none →
      gpuTempOrZero temps i = 0 ∧ overheatWarning temps i pwm = false)
    ∧ (∀ g, temps.find? (fun g2 => g2.gpu_id = i) = some g → g.temperature = 0 →
      gpuTempOrZero temps i = 0 ∧ overheatWarning temps i pwm = false) := by
  constructor
  · intro hnone
    have hz : gpuTempOrZero temps i = 0 := by
      unfold gpuTempOrZero
      rw [hnone]
    refine ⟨hz, ?_⟩
    simp [overheatWarning, hz]
  · intro g hsome htz
    have hz : gpuTempOrZero temps i = 0 := by
      unfold gpuTempOrZero
      rw [hsome]
      simp [htz]
    refine ⟨hz, ?_⟩
    simp [overheatWarning, hz]

/-- Witness for C10: fan 2 has no reading in a one-element list, and fan 3
reports exactly 0 °C; in both cases the fallback temperature is 0 and no
overheat warning is raised even at PWM 0. -/
theorem overheat_check_zero_fallback_witness :
    (gpuTempOrZero [⟨1, 80⟩] 2 = 0 ∧ overheatWarning [⟨1, 80⟩] 2 0 = false)
    ∧ (gpuTempOrZero [⟨3, 0⟩] 3 = 0 ∧ overheatWarning [⟨3, 0⟩] 3 0 = false) :=
  ⟨(overheat_check_zero_fallback [⟨1, 80⟩] 2 0).1 rfl,
   (overheat_check_zero_fallback [⟨3, 0⟩] 3 0).2 ⟨3, 0⟩ rfl rfl⟩

/-- Helper: an evaluation cycle emits at most as many alerts for a given
gpu id as there are readings carrying that id, since each reading yields at
most one alert, tagged with the reading's own id. -/
theorem evalAlerts_countP_le (readings : List GPUTemp) (g : ℕ) :
    (evalAlerts readings).countP (fun a => a.gpu_id = g)
      ≤ readings.countP (fun r => r.gpu_id = g) := by
  induction readings with
  | nil => simp [evalAlerts]
  | cons r rs ih =>
    unfold evalAlerts at ih ⊢
    rw [List.filterMap_cons, List.countP_cons]
    cases he : evalGpuAlert r.temperature with
    | none =>
      exact le_trans ih (Nat.le_add_right _ _)
    | some s =>
      show List.countP _ (GpuAlert.mk r.gpu_id s :: _) ≤ _
      rw [List.countP_cons]
      exact Nat.add_le_add ih le_rfl

/-- C1: For every GPU temperature reading T, the system classifies T
against the warning threshold 90 °C and the critical threshold 120 °C: the
reading yields warning severity if and only if 90 ≤ T < 120, critical
severity if and only if T ≥ 120, and at most one alert per GPU per
evaluation at the highest severity breached. -/
theorem gpu_alert_thresholds (T : ℚ) (readings : List GPUTemp) (g : ℕ) :
    (evalGpuAlert T = some Severity.warning ↔ 90 ≤ T ∧ T < 120)
    ∧ (evalGpuAlert T = some Severity.critical ↔ 120 ≤ T)
    ∧ (evalAlerts readings).countP (fun a => a.gpu_id = g)
        ≤ readings.countP (fun r => r.gpu_id = g) := by
  refine ⟨?_, ?_, evalAlerts_countP_le readings g⟩
  · unfold evalGpuAlert
    split_ifs with hc hw
    · constructor
      · intro h
        exact absurd (Option.some.inj h) (by decide)
      · intro h
        linarith [h.2]
    · constructor
      · intro _
        exact ⟨hw, lt_of_not_le hc⟩
      · intro _
        rfl
    · constructor
      · intro h
        exact absurd h (by simp)
      · intro h
        exact absurd h.1 hw
  · unfold evalGpuAlert
    split_ifs with hc hw
    · simp [hc]
    · constructor
      · intro h
        exact absurd (Option.some.inj h) (by decide)
      · intro h
        exact absurd h hc
    · constructor
      · intro h
        exact absurd h (by simp)
      · intro h
        exact absurd h hc

/-- C3: For any two consecutive controller targets for a fan whose
difference exceeds 10 percentage points, the committed PWM for that fan
changes by at most the configured step (±10 points) in one control cycle;
for a difference of at most 10 points, the committed PWM equals the target
exactly after that cycle.  (After a settled cycle the commanded PWM equals
the previous target, so the difference between consecutive targets is the
difference between the new target and the commanded PWM.) -/
theorem pwm_smoothing_step (c t : ℚ) :
    (10 < |t - c| → |smoothPwm c t - c| ≤ 10)
    ∧ (|t - c| ≤ 10 → smoothPwm c t = t) := by
  constructor
  · intro h
    unfold smoothPwm
    rw [if_pos h]
    by_cases hlt : c < t
    · rw [if_pos hlt, show c + 10 - c = (10:ℚ) by ring]
      rw [abs_of_nonneg (by norm_num : (0:ℚ) ≤ 10)]
    · rw [if_neg hlt, show c - 10 - c = (-10:ℚ) by ring, abs_neg]
      rw [abs_of_nonneg (by norm_num : (0:ℚ) ≤ 10)]
  · intro h
    unfold smoothPwm
    rw [if_neg (not_lt.mpr h)]

/-- Witness for C3: from commanded 20 toward target 100 (difference 80 > 10)
the committed PWM moves by exactly the 10-point step; from 50 toward 55
(difference 5 ≤ 10) it snaps to the target. -/
theorem pwm_smoothing_step_witness :
    |smoothPwm 20 100 - 20| ≤ 10 ∧ smoothPwm 50 55 = 55 :=
  ⟨(pwm_smoothing_step 20 100).1
      (by rw [show (100:ℚ) - 20 = 80 by norm_num,
              abs_of_nonneg (by norm_num : (0:ℚ) ≤ 80)]; norm_num),
   (pwm_smoothing_step 50 55).2
      (by rw [show (55:ℚ) - 50 = 5 by norm_num,
              abs_of_nonneg (by norm_num : (0:ℚ) ≤ 5)]; norm_num)⟩

/-- C7: For every humidity value h, exactly one of three classifications
holds relative to the profile's target band (40–60 %): below the band
(h < 40, humidify), above the band (h > 60, dehumidify), or inside the band
(40 ≤ h ≤ 60, both actuators inactive); in auto mode the synthesized
ActuatorState dehumidifies if and only if humidity is above the band and
humidifies if and only if it is below the band. -/
theorem humidity_band_classification (h : ℚ) :
    (classifyHumidity h = HumClass.low ↔ h < 40)
    ∧ (classifyHumidity h = HumClass.optimal ↔ 40 ≤ h ∧ h ≤ 60)
    ∧ (classifyHumidity h = HumClass.high ↔ 60 < h)
    ∧ ((autoActuator h).dehumidifier_active = true ↔ 60 < h)
    ∧ ((autoActuator h).humidifier_active = true ↔ h < 40) := by
  refine ⟨?_, ?_, ?_, ?_, ?_⟩
  · unfold classifyHumidity
    split_ifs with h1 h2
    · constructor
      · intro he
        exact absurd he (by decide)
      · intro hlt
        exact absurd hlt (not_lt.mpr h1.1)
    · exact ⟨fun _ => h2, fun _ => rfl⟩
    · constructor
      · intro he
        exact absurd he (by decide)
      · intro hlt
        exact absurd hlt h2
  · unfold classifyHumidity
    split_ifs with h1 h2
    · exact ⟨fun _ => h1, fun _ => rfl⟩
    · constructor
      · intro he
        exact absurd he (by decide)
      · intro hb
        exact absurd hb h1
    · constructor
      · intro he
        exact absurd he (by decide)
      · intro hb
        exact absurd hb h1
  · unfold classifyHumidity
    split_ifs with h1 h2
    · constructor
      · intro he
        exact absurd he (by decide)
      · intro hgt
        exact absurd hgt (not_lt.mpr h1.2)
    · constructor
      · intro he
        exact absurd he (by decide)
      · intro hgt
        linarith
    · constructor
      · intro _
        push_neg at h1
        by_contra hng
        push_neg at hng
        exact h2 (by linarith [h1 (by linarith)])
      · intro _
        rfl
  · unfold autoActuator
    split_ifs with h1 h2
    · exact ⟨fun _ => h1, fun _ => rfl⟩
    · constructor
      · intro he
        exact absurd he (by simp)
      · intro hgt
        exact absurd hgt h1
    · constructor
      · intro he
        exact absurd he (by simp)
      · intro hgt
        exact absurd hgt h1
  · unfold autoActuator
    split_ifs with h1 h2
    · constructor
      · intro he
        exact absurd he (by simp)
      · intro hlt
        linarith
    · exact ⟨fun _ => h2, fun _ => rfl⟩
    · constructor
      · intro he
        exact absurd he (by simp)
      · intro hlt
        exact absurd hlt h2

/-- C8 counterexample: a manually submitted ActuatorState with both devices
active is committed verbatim by the manual-mode environmental actuator
controller (only the powers are clamped), so the committed state has both
dehumidifier_active and humidifier_active true — refuting the claim that a
committed state never has both true in manual mode. -/
theorem actuator_both_active_counterexample :
    ((manualCommitActuator ⟨true, 50, true, 50⟩).dehumidifier_active
      && (manualCommitActuator ⟨true, 50, true, 50⟩).humidifier_active) = true := rfl

/-- C8 (amended): in auto mode the synthesized ActuatorState never has both
devices active simultaneously; the manual-mode commit passes the submitted
active flags through verbatim, so a manual submission with both devices
active is committed with both active. -/
theorem actuator_exclusive_auto (h : ℚ) (a : ActuatorState) :
    ((autoActuator h).dehumidifier_active && (autoActuator h).humidifier_active) = false
    ∧ (manualCommitActuator a).dehumidifier_active = a.dehumidifier_active
    ∧ (manualCommitActuator a).humidifier_active = a.humidifier_active := by
  refine ⟨?_, rfl, rfl⟩
  unfold autoActuator
  split_ifs <;> rfl

/-- Helper: on a nonempty band the base PWM equals the linear map clamped
into [20,100]. -/
theorem basePwm_eq_clamp (Tmin Tmax T : ℚ) (hband : Tmin < Tmax) :
    basePwm Tmin Tmax T = max 20 (min 100 (20 + (T - Tmin) / (Tmax - Tmin) * 80)) := by
  have hpos : (0:ℚ) < Tmax - Tmin := by linarith
  unfold basePwm
  split_ifs with h1 h2
  · have hr : (T - Tmin) / (Tmax - Tmin) ≤ 0 :=
      div_nonpos_iff.mpr (Or.inr ⟨by linarith, by linarith⟩)
    have hx : 20 + (T - Tmin) / (Tmax - Tmin) * 80 ≤ 20 := by nlinarith
    rw [min_eq_right (by linarith), max_eq_left (by linarith)]
  · have hr : (1:ℚ) ≤ (T - Tmin) / (Tmax - Tmin) := (one_le_div hpos).mpr (by linarith)
    have hx : (100:ℚ) ≤ 20 + (T - Tmin) / (Tmax - Tmin) * 80 := by nlinarith
    rw [min_eq_left (by linarith), max_eq_right (by linarith)]
  · have hr0 : (0:ℚ) ≤ (T - Tmin) / (Tmax - Tmin) := div_nonneg (by linarith) (by linarith)
    have hr1 : (T - Tmin) / (Tmax - Tmin) ≤ 1 := (div_le_one hpos).mpr (by linarith)
    rw [min_eq_right (by nlinarith), max_eq_right (by nlinarith)]

/-- C4: For all GPU temperatures T in the configured band [Tmin, Tmax],
the base PWM target is a linear map of T onto [20,100] % (e.g. 40 °C maps
to 20 % and 90 °C to 100 %), is monotonically non-decreasing in T, stays
within [20,100], and is clamped to the band edges for T outside
[Tmin, Tmax]. -/
theorem base_pwm_linear (Tmin Tmax T1 T2 : ℚ) (hband : Tmin < Tmax) (h12 : T1 ≤ T2) :
    basePwm Tmin Tmax Tmin = 20
    ∧ basePwm Tmin Tmax Tmax = 100
    ∧ basePwm 40 90 40 = 20
    ∧ basePwm 40 90 90 = 100
    ∧ 20 ≤ basePwm Tmin Tmax T1
    ∧ basePwm Tmin Tmax T1 ≤ 100
    ∧ basePwm Tmin Tmax T1 ≤ basePwm Tmin Tmax T2
    ∧ (T1 ≤ Tmin → basePwm Tmin Tmax T1 = 20)
    ∧ (Tmax ≤ T1 → basePwm Tmin Tmax T1 = 100)
    ∧ (Tmin < T1 → T1 < Tmax →
        basePwm Tmin Tmax T1 = 20 + (T1 - Tmin) / (Tmax - Tmin) * 80) := by
  have hpos : (0:ℚ) < Tmax - Tmin := by linarith
  refine ⟨?_, ?_, ?_, ?_, ?_, ?_, ?_, ?_, ?_, ?_⟩
  · unfold basePwm
    rw [if_pos le_rfl]
  · unfold basePwm
    rw [if_neg (by linarith), if_pos le_rfl]
  · norm_num [basePwm]
  · norm_num [basePwm]
  · rw [basePwm_eq_clamp Tmin Tmax T1 hband]
    exact le_max_left 20 _
  · rw [basePwm_eq_clamp Tmin Tmax T1 hband]
    exact max_le (by norm_num) (min_le_left 100 _)
  · rw [basePwm_eq_clamp Tmin Tmax T1 hband, basePwm_eq_clamp Tmin Tmax T2 hband]
    apply max_le_max le_rfl
    apply min_le_min le_rfl
    have hdiv : (T1 - Tmin) / (Tmax - Tmin) ≤ (T2 - Tmin) / (Tmax - Tmin) :=
      (div_le_div_iff_of_pos_right hpos).mpr (by linarith)
    nlinarith
  · intro h
    unfold basePwm
    rw [if_pos h]
  · intro h
    unfold basePwm
    rw [if_neg (by linarith), if_pos h]
  · intro hlo hhi
    unfold basePwm
    rw [if_neg (by linarith), if_neg (by linarith)]

/-- Witness for C4 at the example band [40,90] and temperatures 50 ≤ 70. -/
theorem base_pwm_linear_witness :
    basePwm 40 90 40 = 20
    ∧ basePwm 40 90 90 = 100
    ∧ basePwm 40 90 40 = 20
    ∧ basePwm 40 90 90 = 100
    ∧ 20 ≤ basePwm 40 90 50
    ∧ basePwm 40 90 50 ≤ 100
    ∧ basePwm 40 90 50 ≤ basePwm 40 90 70
    ∧ ((50:ℚ) ≤ 40 → basePwm 40 90 50 = 20)
    ∧ ((90:ℚ) ≤ 50 → basePwm 40 90 50 = 100)
    ∧ ((40:ℚ) < 50 → (50:ℚ) < 90 →
        basePwm 40 90 50 = 20 + (50 - 40) / (90 - 40) * 80) :=
  base_pwm_linear 40 90 50 70 (by norm_num) (by norm_num)

/-- C6: The corrosion index and fan wear index of TrendState are never
negative, are non-decreasing across every accumulation tick with
non-negative elapsed time between explicit resets, and the explicit reset
operation (POST /trends/advanced/reset) sets both indices to exactly 0.
The tick inputs are a non-negative dust concentration and fan RPM, as
delivered by the sensors. -/
theorem trend_monotone_reset (s : TrendState) (dt h dust rpm : ℚ)
    (hdust : 0 ≤ dust) (hrpm : 0 ≤ rpm) :
    s.corrosion_index ≤ (trendTick s dt h dust rpm).corrosion_index
    ∧ s.fan_wear_index ≤ (trendTick s dt h dust rpm).fan_wear_index
    ∧ (0 ≤ s.corrosion_index → 0 ≤ (trendTick s dt h dust rpm).corrosion_index)
    ∧ (0 ≤ s.fan_wear_index → 0 ≤ (trendTick s dt h dust rpm).fan_wear_index)
    ∧ trendReset.corrosion_index = 0
    ∧ trendReset.fan_wear_index = 0 := by
  unfold trendTick
  split_ifs with hdt
  · exact ⟨le_rfl, le_rfl, id, id, rfl, rfl⟩
  · push_neg at hdt
    have hci : 0 ≤ dt * (max 0 (h - 60) + max 0 (40 - h)) :=
      mul_nonneg (le_of_lt hdt) (add_nonneg (le_max_left 0 _) (le_max_left 0 _))
    have hfwi : 0 ≤ dt * rpm * dust :=
      mul_nonneg (mul_nonneg (le_of_lt hdt) hrpm) hdust
    refine ⟨by dsimp only; linarith, by dsimp only; linarith,
      fun hs => by dsimp only; linarith, fun hs => by dsimp only; linarith, rfl, rfl⟩

/-- Witness for C6: a two-hour tick at 75 % humidity, 10 μg/m³ dust and
2000 RPM from a positive TrendState. -/
theorem trend_monotone_reset_witness :
    (TrendState.mk 1 2).corrosion_index
        ≤ (trendTick (TrendState.mk 1 2) 7200 75 10 2000).corrosion_index
    ∧ (TrendState.mk 1 2).fan_wear_index
        ≤ (trendTick (TrendState.mk 1 2) 7200 75 10 2000).fan_wear_index
    ∧ (0 ≤ (TrendState.mk 1 2).corrosion_index →
        0 ≤ (trendTick (TrendState.mk 1 2) 7200 75 10 2000).corrosion_index)
    ∧ (0 ≤ (TrendState.mk 1 2).fan_wear_index →
        0 ≤ (trendTick (TrendState.mk 1 2) 7200 75 10 2000).fan_wear_index)
    ∧ trendReset.corrosion_index = 0
    ∧ trendReset.fan_wear_index = 0 :=
  trend_monotone_reset (TrendState.mk 1 2) 7200 75 10 2000 (by norm_num) (by norm_num)

end GpuCooling
